import Mathlib

/-!
Verification of the construction-takeoff core (`construction_takeoff/takeoff`):
a shallow embedding of the drawing loader, the PDF measurement extractor, and
the concrete estimator, with theorems checking the natural-language spec.

Modelling conventions:
* Python floats are modelled as exact rationals (`ℚ`); `math.pi` is the
  constant `mathPi` below (the decimal value of the float constant).
* Python dicts that the source reads with `.get`/key membership are modelled
  as association lists (`List (String × _)`), insertion-ordered like dicts.
* Raised exceptions are modelled with `Except String` / an `Option String`
  error slot; a generator that raises mid-stream is modelled by the pair
  (drawings yielded before the raise, the raised message).
* Regex scanning (`_MEASUREMENT_PATTERN.finditer`) is abstracted at the match
  boundary: a page is the list of its matches (label, value, unit groups).
* String primitives that the source uses (`.lower()`, `.strip()`,
  `.replace`, `in`, `sorted`) are re-implemented over `Char` lists so that
  everything reduces in the kernel; Python's `sorted` (a stable comparison
  sort over code points) is modelled with Mathlib's stable `insertionSort`
  over code-point lexicographic order.
-/

namespace ConstructionTakeoff

/-- `str.lower()` over the character list (inputs here are ASCII). -/
def lowerStr (s : String) : String :=
  String.mk (s.data.map Char.toLower)

/-- `str.strip()`: drop whitespace from both ends. -/
def trimStr (s : String) : String :=
  String.mk (((s.data.dropWhile Char.isWhitespace).reverse.dropWhile Char.isWhitespace).reverse)

/-- `str.replace(c, "")` for a one-character pattern: remove every occurrence. -/
def removeChar (c : Char) (s : String) : String :=
  String.mk (s.data.filter (fun d => d ≠ c))

/-- `str.replace(c, r)` for one-character pattern and replacement. -/
def replaceChar (c r : Char) (s : String) : String :=
  String.mk (s.data.map (fun d => if d = c then r else d))

/-- Substring test on character lists (Python's `needle in hay`). -/
def listIsInfix (nee : List Char) : List Char → Bool
  | [] => nee.isEmpty
  | c :: rest => nee.isPrefixOf (c :: rest) || listIsInfix nee rest

/-- Python's `needle in hay` on strings. -/
def strContainsB (hay nee : String) : Bool :=
  listIsInfix nee.data hay.data

/-- Code-point lexicographic `≤` on character lists: how Python compares
strings in `sorted`. -/
def lexLe : List Char → List Char → Bool
  | [], _ => true
  | _ :: _, [] => false
  | a :: as, b :: bs =>
    if a.toNat < b.toNat then true
    else if b.toNat < a.toNat then false
    else lexLe as bs

/-- Python string `≤` (code-point lexicographic). -/
def strLe (s t : String) : Bool :=
  lexLe s.data t.data

/-- A parsed JSON value (`json.loads` output). -/
inductive Json where
  | null
  | bool (b : Bool)
  | num (q : ℚ)
  | str (s : String)
  | arr (items : List Json)
  | obj (fields : List (String × Json))

/-- Python's `str(value)` on a JSON value, as far as the claims exercise it
(the loader applies it to `id`/`trade`/`category`, which are strings in every
input the claims touch; container rendering is not modelled). -/
def pyStr : Json → String
  | .str s => s
  | .num q => toString q
  | .bool true => "True"
  | .bool false => "False"
  | .null => "None"
  | .arr _ => "<list>"
  | .obj _ => "<dict>"

/-- `float(v)` on a JSON geometry value. `float` also accepts numeric strings
in Python; string-typed geometry is outside this model's inputs, all claims
exercise numeric (or bool) values only. -/
def jsonToFloat : Json → Option ℚ
  | .num q => some q
  | .bool b => some (if b then 1 else 0)
  | _ => none

/-- `DrawingElement` (drawings.py): one element extracted from a drawing. -/
structure DrawingElement where
  id : String
  trade : String
  category : String
  geometry : List (String × ℚ)
  metadata : List (String × Json)

/-- `Drawing` (drawings.py): one sheet or level. `name` keeps the raw JSON
value `project.get("name", stem)` like the source does. -/
structure Drawing where
  name : Json
  level : Option Json
  scale : Option Json
  elements : List DrawingElement

/-- `element.geometry.get(key, 0.0)`: missing keys read as `0.0`. -/
def getGeom (e : DrawingElement) (k : String) : ℚ :=
  (e.geometry.lookup k).getD 0

/-- `_TRADE_KEYWORDS` (drawings.py), an insertion-ordered dict. -/
def tradeKeywords : List (String × List String) :=
  [("concrete", ["slab", "concrete", "footing", "foundation", "grade beam", "column", "wall"]),
   ("masonry", ["masonry", "brick", "cmu", "block"]),
   ("steel", ["steel", "beam", "joist", "girder"]),
   ("roofing", ["roof", "roofing", "membrane"]),
   ("framing", ["stud", "framing", "joist", "truss"]),
   ("waterproofing", ["waterproof", "damp proof", "seal"])]

/-- The loop body of `DrawingLoader._infer_trade` over the keyword table. -/
def inferTradeAux (lowered : String) (fallback : Option String) :
    List (String × List String) → String
  | [] => fallback.getD "general"
  | (trade, keywords) :: rest =>
    if keywords.any (fun kw => strContainsB lowered kw) then
      match fallback with
      | some fb => if trade ≠ fb then fb else trade
      | none => trade
    else inferTradeAux lowered fallback rest

/-- `DrawingLoader._infer_trade` (drawings.py). -/
def inferTrade (label : String) (fallback : Option String) : String :=
  inferTradeAux (lowerStr label) fallback tradeKeywords

/-- `_category_from_label` (drawings.py). -/
def categoryFromLabel (label : String) : String :=
  let lowered := lowerStr label
  if strContainsB lowered "slab" then "slab"
  else if strContainsB lowered "footing" || strContainsB lowered "foundation" then "footing"
  else if strContainsB lowered "rebar" || strContainsB lowered "reinforcing" then "rebar"
  else if strContainsB lowered "form" then "formwork"
  else if strContainsB lowered "labor" then "labor"
  else
    let normalized := ((replaceChar ' ' '_' lowered).data.take 40)
    if normalized.isEmpty then "unclassified" else String.mk normalized

/-- A character kept by `_slugify`'s regex class `[a-z0-9]` (the label is
lowercased first). -/
def isSlugChar (c : Char) : Bool :=
  (97 ≤ c.toNat && c.toNat ≤ 122) || (48 ≤ c.toNat && c.toNat ≤ 57)

/-- Collapse runs of dashes to one dash: together with the char map below this
is `re.sub(r"[^a-z0-9]+", "-", s)`. -/
def collapseDashes : List Char → List Char
  | [] => []
  | [c] => [c]
  | c₁ :: c₂ :: rest =>
    if c₁ = '-' && c₂ = '-' then collapseDashes (c₂ :: rest)
    else c₁ :: collapseDashes (c₂ :: rest)

/-- `_slugify` (drawings.py). -/
def slugify (label : String) (index : ℕ) : String :=
  let dashed := collapseDashes ((lowerStr label).data.map (fun c => if isSlugChar c then c else '-'))
  let stripped := ((dashed.dropWhile (fun c => c = '-')).reverse.dropWhile (fun c => c = '-')).reverse
  let slug := if stripped.isEmpty then "item" else String.mk stripped
  slug ++ "-" ++ toString index

/-- `_geometry_from_unit` (drawings.py): map a unit token to one geometry
key/value. -/
def geometryFromUnit (unit : String) (value : ℚ) : List (String × ℚ) :=
  let normalized := lowerStr (trimStr (removeChar '.' unit))
  let compact := removeChar ' ' normalized
  if normalized = "sq ft" ∨ normalized = "square feet" ∨ compact = "sf" then
    [("area_sqft", value)]
  else if normalized = "cubic yards" ∨ normalized = "cu yd" ∨ compact = "cy" ∨ compact = "cuyd" ∨ compact = "cuyds" then
    [("volume_cy", value)]
  else if normalized = "linear feet" ∨ normalized = "ft" ∨ normalized = "feet" ∨ compact = "lf" then
    [("length_ft", value)]
  else if normalized = "each" ∨ compact = "ea" then
    [("count", value)]
  else if normalized = "hr" ∨ normalized = "hrs" ∨ normalized = "hour" ∨ normalized = "hours" ∨ compact = "hr" ∨ compact = "hrs" then
    [("labor_hours", value)]
  else
    [("quantity", value)]

/-- One regex match of `_MEASUREMENT_PATTERN`: the raw `label`, `value` and
`unit` groups (the loop strips/lowers them itself). -/
structure PdfMatch where
  label : String
  value : ℚ
  unit : String

/-- The loop body of `DrawingLoader._parse_pdf_page` for one match (1-based
index `idx`): `none` is the `continue` on empty geometry. -/
def candidateOfMatch (defaultTrade : Option String) (source : String) (idx : ℕ)
    (m : PdfMatch) : Option DrawingElement :=
  let label := trimStr m.label
  let value := m.value
  let unit := lowerStr m.unit
  let geometry := geometryFromUnit unit value
  if geometry.isEmpty then none
  else
    let trade := inferTrade label defaultTrade
    let elementId := slugify label idx
    let metadata : List (String × Json) :=
      [("source", Json.str source), ("unit", Json.str unit), ("raw_label", Json.str label)]
    let category := categoryFromLabel label
    if category = "slab" ∧ (geometry.lookup "area_sqft").isSome ∧ (geometry.lookup "thickness_in").isNone then
      some ⟨elementId, trade, category, geometry ++ [("thickness_in", 6)],
            metadata ++ [("assumed_thickness_in", Json.num 6)]⟩
    else
      some ⟨elementId, trade, category, geometry, metadata⟩

/-- The candidate elements one page's matches produce (the `for` loop of
`_parse_pdf_page`, with its skip of empty geometry). -/
def pageCandidates (defaultTrade : Option String) (source : String)
    (ms : List PdfMatch) : List DrawingElement :=
  ms.enum.filterMap (fun p => candidateOfMatch defaultTrade source (p.1 + 1) p.2)

/-- The placeholder element `_parse_pdf_page` emits for an empty page when a
default trade was supplied. -/
def placeholderElement (trade source : String) : DrawingElement :=
  ⟨"placeholder-1", trade, "unclassified", [],
   [("source", Json.str source),
    ("note", Json.str "No measurable callouts detected. Review required."),
    ("placeholder", Json.str "true")]⟩

/-- `DrawingLoader._parse_pdf_page` (drawings.py), at the match boundary. -/
def parsePdfPage (defaultTrade : Option String) (source : String)
    (ms : List PdfMatch) : List DrawingElement :=
  let elements := pageCandidates defaultTrade source ms
  if elements.isEmpty then
    match defaultTrade with
    | some t => [placeholderElement t source]
    | none => []
  else elements

/-- `ReviewItem` (human_review.py). -/
structure ReviewItem where
  message : String
  severity : String

/-- `TakeoffLineItem` (estimators/base.py): one priced row; the cost fields
below are its `@property` accessors, derived and never stored. -/
structure TakeoffLineItem where
  description : String
  quantity : ℚ
  unit : String
  material_unit_cost : ℚ
  labor_hours_per_unit : ℚ
  labor_rate_per_hour : ℚ

/-- `TakeoffLineItem.material_cost` (a `@property`). -/
def TakeoffLineItem.material_cost (li : TakeoffLineItem) : ℚ :=
  li.quantity * li.material_unit_cost

/-- `TakeoffLineItem.labor_hours` (a `@property`). -/
def TakeoffLineItem.labor_hours (li : TakeoffLineItem) : ℚ :=
  li.quantity * li.labor_hours_per_unit

/-- `TakeoffLineItem.labor_cost` (a `@property`). -/
def TakeoffLineItem.labor_cost (li : TakeoffLineItem) : ℚ :=
  li.labor_hours * li.labor_rate_per_hour

/-- The `summary` dict of `ConcreteEstimator.estimate`, which always holds
exactly these six keys. -/
structure Summary where
  concrete_cy : ℚ
  rebar_lb : ℚ
  formwork_sf : ℚ
  labor_hours : ℚ
  material_cost : ℚ
  labor_cost : ℚ

/-- `TakeoffResult` (estimators/base.py). -/
structure TakeoffResult where
  line_items : List TakeoffLineItem
  summary : Summary

/-- The pricing/production configuration `ConcreteEstimator.__init__` installs
(`material_prices`, `labor_rates`, `production_rates`) — swappable data, so
the estimator is parameterized over it. -/
structure ConcreteRates where
  ready_mix_cy : ℚ
  rebar_lb : ℚ
  formwork_sf : ℚ
  concrete_crew : ℚ
  place_finish_cy_per_hour : ℚ
  rebar_lb_per_hour : ℚ
  formwork_sf_per_hour : ℚ

/-- The default rate table from `ConcreteEstimator.__init__`. -/
def defaultConcreteRates : ConcreteRates :=
  ⟨135, 0.75, 4.5, 65, 8, 120, 40⟩

/-- `ConcreteEstimator._line_item` (estimators/concrete.py): note the
production-rate truthiness guard `1 / production_rate if production_rate
else 0.0`. -/
def mkLineItem (r : ConcreteRates) (description : String) (quantity : ℚ)
    (unit : String) (material_price : ℚ) (production_rate : ℚ) : TakeoffLineItem :=
  { description := description
    quantity := quantity
    unit := unit
    material_unit_cost := material_price
    labor_hours_per_unit := if production_rate = 0 then 0 else 1 / production_rate
    labor_rate_per_hour := r.concrete_crew }

/-- `ConcreteEstimator._slab_volume_cy`. -/
def slabVolumeCy (e : DrawingElement) : ℚ :=
  getGeom e "area_sqft" * getGeom e "thickness_in" / 12 / 27

/-- `ConcreteEstimator._wall_volume_cy`. -/
def wallVolumeCy (e : DrawingElement) : ℚ :=
  getGeom e "length_ft" * getGeom e "height_ft" * getGeom e "thickness_in" / 12 / 27

/-- Rational stand-in for the float constant `math.pi`. -/
def mathPi : ℚ := 3.141592653589793

/-- `ConcreteEstimator._pier_volume_cy`. -/
def pierVolumeCy (e : DrawingElement) : ℚ :=
  let radius_ft := (getGeom e "diameter_in" / 12) / 2
  mathPi * radius_ft * radius_ft * getGeom e "depth_ft" / 27

/-- The warning `ReviewItem` the estimator's `else` branch appends for an
unsupported category. -/
def unsupportedWarning (e : DrawingElement) : ReviewItem :=
  ⟨"Concrete estimator encountered unsupported category '" ++ e.category ++
     "' for element " ++ e.id ++ ".", "warning"⟩

/-- The mutable state of `ConcreteEstimator.estimate`'s element loop:
`line_items`, the three quantity entries of `summary` it touches, and the
`ReviewChecklist` sink. -/
structure EstAcc where
  line_items : List TakeoffLineItem
  concrete_cy : ℚ
  rebar_lb : ℚ
  formwork_sf : ℚ
  review : List ReviewItem

/-- One iteration of the `for element in elements` loop of
`ConcreteEstimator.estimate`. -/
def estimateStep (r : ConcreteRates) (acc : EstAcc) (e : DrawingElement) : EstAcc :=
  if e.category = "slab" then
    let cy := slabVolumeCy e
    let formwork := getGeom e "area_sqft"
    let rebar := cy * 250
    { acc with
      line_items := acc.line_items ++
        [mkLineItem r ("Concrete slab " ++ e.id) cy "cy" r.ready_mix_cy r.place_finish_cy_per_hour,
         mkLineItem r ("Rebar for slab " ++ e.id) rebar "lb" r.rebar_lb r.rebar_lb_per_hour,
         mkLineItem r ("Slab formwork " ++ e.id) formwork "sf" r.formwork_sf r.formwork_sf_per_hour]
      concrete_cy := acc.concrete_cy + cy
      rebar_lb := acc.rebar_lb + rebar
      formwork_sf := acc.formwork_sf + formwork }
  else if e.category = "wall" then
    let cy := wallVolumeCy e
    let formwork := getGeom e "length_ft" * getGeom e "height_ft" * 2
    let rebar := cy * 180
    { acc with
      line_items := acc.line_items ++
        [mkLineItem r ("Concrete wall " ++ e.id) cy "cy" r.ready_mix_cy r.place_finish_cy_per_hour,
         mkLineItem r ("Rebar for wall " ++ e.id) rebar "lb" r.rebar_lb r.rebar_lb_per_hour,
         mkLineItem r ("Wall formwork " ++ e.id) formwork "sf" r.formwork_sf r.formwork_sf_per_hour]
      concrete_cy := acc.concrete_cy + cy
      rebar_lb := acc.rebar_lb + rebar
      formwork_sf := acc.formwork_sf + formwork }
  else if e.category = "pier" then
    let cy := pierVolumeCy e
    let rebar := cy * 120
    { acc with
      line_items := acc.line_items ++
        [mkLineItem r ("Concrete pier " ++ e.id) cy "cy" r.ready_mix_cy r.place_finish_cy_per_hour,
         mkLineItem r ("Rebar for pier " ++ e.id) rebar "lb" r.rebar_lb r.rebar_lb_per_hour]
      concrete_cy := acc.concrete_cy + cy
      rebar_lb := acc.rebar_lb + rebar }
  else
    { acc with review := acc.review ++ [unsupportedWarning e] }

/-- Sum of a derived field over line items (the final `for item in
line_items` loop accumulates from `0.0`). -/
def sumOf (items : List TakeoffLineItem) (f : TakeoffLineItem → ℚ) : ℚ :=
  (items.map f).sum

/-- `ConcreteEstimator.estimate` (estimators/concrete.py). The review sink is
passed in and returned (the source mutates `self.review`). -/
def estimate (r : ConcreteRates) (elements : List DrawingElement)
    (review0 : List ReviewItem) : TakeoffResult × List ReviewItem :=
  let acc := elements.foldl (estimateStep r)
    { line_items := [], concrete_cy := 0, rebar_lb := 0, formwork_sf := 0, review := review0 }
  ({ line_items := acc.line_items
     summary :=
       { concrete_cy := acc.concrete_cy
         rebar_lb := acc.rebar_lb
         formwork_sf := acc.formwork_sf
         labor_hours := sumOf acc.line_items TakeoffLineItem.labor_hours
         material_cost := sumOf acc.line_items TakeoffLineItem.material_cost
         labor_cost := sumOf acc.line_items TakeoffLineItem.labor_cost } },
   acc.review)

/-- The line items one element contributes (for the fold-decomposition
lemmas). -/
def elementLineItems (r : ConcreteRates) (e : DrawingElement) : List TakeoffLineItem :=
  if e.category = "slab" then
    [mkLineItem r ("Concrete slab " ++ e.id) (slabVolumeCy e) "cy" r.ready_mix_cy r.place_finish_cy_per_hour,
     mkLineItem r ("Rebar for slab " ++ e.id) (slabVolumeCy e * 250) "lb" r.rebar_lb r.rebar_lb_per_hour,
     mkLineItem r ("Slab formwork " ++ e.id) (getGeom e "area_sqft") "sf" r.formwork_sf r.formwork_sf_per_hour]
  else if e.category = "wall" then
    [mkLineItem r ("Concrete wall " ++ e.id) (wallVolumeCy e) "cy" r.ready_mix_cy r.place_finish_cy_per_hour,
     mkLineItem r ("Rebar for wall " ++ e.id) (wallVolumeCy e * 180) "lb" r.rebar_lb r.rebar_lb_per_hour,
     mkLineItem r ("Wall formwork " ++ e.id) (getGeom e "length_ft" * getGeom e "height_ft" * 2) "sf" r.formwork_sf r.formwork_sf_per_hour]
  else if e.category = "pier" then
    [mkLineItem r ("Concrete pier " ++ e.id) (pierVolumeCy e) "cy" r.ready_mix_cy r.place_finish_cy_per_hour,
     mkLineItem r ("Rebar for pier " ++ e.id) (pierVolumeCy e * 120) "lb" r.rebar_lb r.rebar_lb_per_hour]
  else []

/-- The `concrete_cy` one element contributes. -/
def elementCy (e : DrawingElement) : ℚ :=
  if e.category = "slab" then slabVolumeCy e
  else if e.category = "wall" then wallVolumeCy e
  else if e.category = "pier" then pierVolumeCy e
  else 0

/-- The `rebar_lb` one element contributes. -/
def elementRebar (e : DrawingElement) : ℚ :=
  if e.category = "slab" then slabVolumeCy e * 250
  else if e.category = "wall" then wallVolumeCy e * 180
  else if e.category = "pier" then pierVolumeCy e * 120
  else 0

/-- The `formwork_sf` one element contributes. -/
def elementFormwork (e : DrawingElement) : ℚ :=
  if e.category = "slab" then getGeom e "area_sqft"
  else if e.category = "wall" then getGeom e "length_ft" * getGeom e "height_ft" * 2
  else 0

/-- The review items one element appends. -/
def elementReview (e : DrawingElement) : List ReviewItem :=
  if e.category = "slab" then []
  else if e.category = "wall" then []
  else if e.category = "pier" then []
  else [unsupportedWarning e]

/-- One loop iteration, written as the per-element contributions. -/
lemma estimateStep_eq (r : ConcreteRates) (acc : EstAcc) (e : DrawingElement) :
    estimateStep r acc e =
      { line_items := acc.line_items ++ elementLineItems r e
        concrete_cy := acc.concrete_cy + elementCy e
        rebar_lb := acc.rebar_lb + elementRebar e
        formwork_sf := acc.formwork_sf + elementFormwork e
        review := acc.review ++ elementReview e } := by
  unfold estimateStep elementLineItems elementCy elementRebar elementFormwork elementReview
  split_ifs <;> simp

/-- The whole element loop, decomposed into per-element contributions. -/
lemma foldl_estimateStep (r : ConcreteRates) (es : List DrawingElement) (acc : EstAcc) :
    es.foldl (estimateStep r) acc =
      { line_items := acc.line_items ++ es.flatMap (elementLineItems r)
        concrete_cy := acc.concrete_cy + (es.map elementCy).sum
        rebar_lb := acc.rebar_lb + (es.map elementRebar).sum
        formwork_sf := acc.formwork_sf + (es.map elementFormwork).sum
        review := acc.review ++ es.flatMap elementReview } := by
  induction es generalizing acc with
  | nil => simp
  | cons e rest ih =>
    simp only [List.foldl_cons, estimateStep_eq, ih, List.flatMap_cons, List.map_cons, List.sum_cons]
    simp [List.append_assoc, add_assoc]

/-- Split a character list on a separator character (for `pathlib` stems and
`str.split`-style checks). -/
def splitOnCharAux (c : Char) : List Char → List Char → List (List Char)
  | [], cur => [cur.reverse]
  | d :: rest, cur =>
    if d = c then cur.reverse :: splitOnCharAux c rest []
    else splitOnCharAux c rest (d :: cur)

/-- Join character lists with a separator character. -/
def joinWithChar (c : Char) : List (List Char) → List Char
  | [] => []
  | [p] => p
  | p :: rest => p ++ c :: joinWithChar c rest

/-- `pathlib.Path(source).stem`: the last path component without its final
extension. -/
def pathStem (s : String) : String :=
  let name := (splitOnCharAux '/' s.data []).getLastD []
  let parts := splitOnCharAux '.' name []
  match parts with
  | [] => String.mk name
  | [_] => String.mk name
  | _ => String.mk (joinWithChar '.' parts.dropLast)

/-- The `required_fields` set of `DrawingLoader._parse_element` (also the
reserved keys excluded from metadata). -/
def requiredFields : List String := ["id", "trade", "category", "geometry"]

/-- `required_fields - item.keys()`, listed in the table's order (Python
renders the set in arbitrary order; the model renders deterministically). -/
def missingFields (fields : List (String × Json)) : List String :=
  requiredFields.filter (fun f => (fields.lookup f).isNone)

/-- Deterministic rendering of the missing-field set for the error text. -/
def renderFieldList : List String → String
  | [] => ""
  | [f] => f
  | f :: rest => f ++ ", " ++ renderFieldList rest

/-- `{k: float(v) for k, v in geometry.items()}`: non-numeric values raise. -/
def coerceGeometry (source : String) : List (String × Json) → Except String (List (String × ℚ))
  | [] => .ok []
  | (k, v) :: rest =>
    match jsonToFloat v with
    | some q => (coerceGeometry source rest).map (fun tail => (k, q) :: tail)
    | none => .error ("could not convert geometry value for " ++ k ++ " in " ++ source)

/-- `DrawingLoader._parse_element` (drawings.py). -/
def parseElement (item : Json) (source : String) : Except String DrawingElement :=
  match item with
  | .obj fields =>
    if missingFields fields ≠ [] then
      .error ("Element missing fields " ++ renderFieldList (missingFields fields) ++ " in " ++ source)
    else
      match fields.lookup "geometry" with
      | some (.obj gfs) =>
        match coerceGeometry source gfs with
        | .error e => .error e
        | .ok geometry =>
          .ok { id := pyStr ((fields.lookup "id").getD .null)
                trade := lowerStr (pyStr ((fields.lookup "trade").getD .null))
                category := lowerStr (pyStr ((fields.lookup "category").getD .null))
                geometry := geometry
                metadata := fields.filter (fun kv => !(requiredFields.contains kv.1)) }
      | _ => .error ("Element geometry must be a dict in " ++ source)
  | _ => .error ("Element entry is not an object in " ++ source)

/-- `DrawingLoader._load_json` (drawings.py). `none` stands for a payload on
which `json.loads` raises (malformed JSON syntax). The source's message
appends the `JSONDecodeError` detail after the source name; the model keeps
the fixed prefix naming the source. -/
def loadJson (payload : Option Json) (source : String) : Except String Drawing :=
  match payload with
  | none => .error ("Failed to parse drawing JSON from " ++ source)
  | some (.obj fields) =>
    let projectInfo : Except String (List (String × Json)) :=
      match fields.lookup "project" with
      | none => .ok []
      | some (.obj pf) => .ok pf
      | some _ => .error ("project info is not an object in " ++ source)
    match projectInfo with
    | .error e => .error e
    | .ok pf =>
      let elementsArr : Except String (List Json) :=
        match fields.lookup "elements" with
        | none => .ok []
        | some (.arr xs) => .ok xs
        | some _ => .error ("elements is not an array in " ++ source)
      match elementsArr with
      | .error e => .error e
      | .ok xs =>
        match xs.mapM (fun item => parseElement item source) with
        | .error e => .error e
        | .ok els =>
          .ok { name := (pf.lookup "name").getD (.str (pathStem source))
                level := pf.lookup "level"
                scale := pf.lookup "scale"
                elements := els }
  | some _ => .error ("drawing document is not an object in " ++ source)

/-- One file of a directory or one zip-archive entry: a `.json` document
(`none` = malformed JSON) or a `.pdf` (`none` = unreadable PDF; otherwise its
extracted pages, each a list of regex matches). -/
inductive DirEntry where
  | jsonFile (name : String) (content : Option Json)
  | pdfFile (name : String) (content : Option (List (List PdfMatch)))

/-- The file/entry name of a `DirEntry`. -/
def entryName : DirEntry → String
  | .jsonFile n _ => n
  | .pdfFile n _ => n

/-- Python's `sorted` by a name key: a stable comparison sort over
code-point order. -/
def sortByNameKey {α : Type} (key : α → String) (l : List α) : List α :=
  @List.insertionSort α (fun a b => strLe (key a) (key b) = true)
    (fun a b => inferInstanceAs (Decidable (strLe (key a) (key b) = true))) l

/-- The `.json` files of a directory listing (`directory.glob("*.json")`). -/
def jsonEntriesOf : List DirEntry → List (String × Option Json)
  | [] => []
  | .jsonFile n c :: rest => (n, c) :: jsonEntriesOf rest
  | .pdfFile _ _ :: rest => jsonEntriesOf rest

/-- The `.pdf` files of a directory listing (`directory.glob("*.pdf")`). -/
def pdfEntriesOf : List DirEntry → List (String × Option (List (List PdfMatch)))
  | [] => []
  | .jsonFile _ _ :: rest => pdfEntriesOf rest
  | .pdfFile n c :: rest => (n, c) :: pdfEntriesOf rest

/-- The JSON phase of `_load_from_directory`: process in order; a raise
aborts the generator, keeping the drawings already yielded. Each yielded
drawing is paired with the file name it came from. -/
def processJsonEntries : List (String × Option Json) → List (String × Drawing) × Option String
  | [] => ([], none)
  | (name, content) :: rest =>
    match loadJson content name with
    | .error e => ([], some e)
    | .ok d =>
      let tail := processJsonEntries rest
      ((name, d) :: tail.1, tail.2)

/-- `if not pages: pages = [""]` in `_load_pdf_bytes`. -/
def pagesOrBlank (pages : List (List PdfMatch)) : List (List PdfMatch) :=
  if pages.isEmpty then [[]] else pages

/-- The per-page drawings of one PDF document (`_load_pdf_bytes`), paired
with the yield name used for ordering claims. -/
def pdfEntryDrawings (dt : Option String) (yieldName source stemName : String)
    (pages : List (List PdfMatch)) : List (String × Drawing) :=
  (pagesOrBlank pages).enum.map (fun p =>
    (yieldName,
     { name := Json.str (stemName ++ "-p" ++ toString (p.1 + 1))
       level := none
       scale := none
       elements := parsePdfPage dt (source ++ "#page" ++ toString (p.1 + 1)) p.2 }))

/-- The PDF phase of `_load_from_directory`: an unreadable PDF raises and
aborts the generator. -/
def processPdfEntries (dt : Option String) :
    List (String × Option (List (List PdfMatch))) → List (String × Drawing) × Option String
  | [] => ([], none)
  | (name, none) :: _ => ([], some ("Failed to read drawing PDF from " ++ name))
  | (name, some pages) :: rest =>
    let tail := processPdfEntries dt rest
    (pdfEntryDrawings dt name name (pathStem name) pages ++ tail.1, tail.2)

/-- `DrawingLoader._load_from_directory` (drawings.py): all JSON files sorted
by name, then all PDF files sorted by name; the result is (drawings yielded,
the raised error if the generator aborted). -/
def loadFromDirectory (dt : Option String) (entries : List DirEntry) :
    List (String × Drawing) × Option String :=
  let js := processJsonEntries (sortByNameKey Prod.fst (jsonEntriesOf entries))
  match js.2 with
  | some e => (js.1, some e)
  | none =>
    let ps := processPdfEntries dt (sortByNameKey Prod.fst (pdfEntriesOf entries))
    (js.1 ++ ps.1, ps.2)

/-- The entry loop of `DrawingLoader._load_from_zip` over the sorted name
list; sources are `archive:name`. -/
def processZipEntries (arch : String) (dt : Option String) :
    List DirEntry → List (String × Drawing) × Option String
  | [] => ([], none)
  | .jsonFile name content :: rest =>
    match loadJson content (arch ++ ":" ++ name) with
    | .error e => ([], some e)
    | .ok d =>
      let tail := processZipEntries arch dt rest
      ((name, d) :: tail.1, tail.2)
  | .pdfFile name none :: _ =>
    ([], some ("Failed to read drawing PDF from " ++ arch ++ ":" ++ name))
  | .pdfFile name (some pages) :: rest =>
    let tail := processZipEntries arch dt rest
    (pdfEntryDrawings dt name (arch ++ ":" ++ name) (pathStem name) pages ++ tail.1, tail.2)

/-- `DrawingLoader._load_from_zip` (drawings.py): entries in
`sorted(archive.namelist())` order. -/
def loadFromZip (arch : String) (dt : Option String) (entries : List DirEntry) :
    List (String × Drawing) × Option String :=
  processZipEntries arch dt (sortByNameKey entryName entries)

/-- File names in directory yield order (one per JSON document, one per PDF
page). -/
def dirYieldNames (dt : Option String) (entries : List DirEntry) : List String :=
  (loadFromDirectory dt entries).1.map Prod.fst

/-- Archive entry names in zip yield order. -/
def zipYieldNames (arch : String) (dt : Option String) (entries : List DirEntry) : List String :=
  (loadFromZip arch dt entries).1.map Prod.fst

/-- `min(max(value, 0.0), 1.0)` from `collect_manual_measurements`
(manual.py). -/
def clamp01 (v : ℚ) : ℚ :=
  min (max v 0) 1

/-- The four clamped coordinates the manual-entry flow captures and joins
into `metadata["markup_bbox"]` (manual.py, the bbox prompt loop). -/
def captureBboxCoords (x1 y1 x2 y2 : ℚ) : List ℚ :=
  [clamp01 x1, clamp01 y1, clamp01 x2, clamp01 y2]

/-! ## Helper lemmas -/

lemma geometryFromUnit_eq_cases (u : String) (v : ℚ) :
    geometryFromUnit u v = [("area_sqft", v)] ∨ geometryFromUnit u v = [("volume_cy", v)] ∨
    geometryFromUnit u v = [("length_ft", v)] ∨ geometryFromUnit u v = [("count", v)] ∨
    geometryFromUnit u v = [("labor_hours", v)] ∨ geometryFromUnit u v = [("quantity", v)] := by
  unfold geometryFromUnit
  dsimp only
  split_ifs <;> simp

lemma geometryFromUnit_ne_nil (u : String) (v : ℚ) : geometryFromUnit u v ≠ [] := by
  rcases geometryFromUnit_eq_cases u v with h | h | h | h | h | h <;> simp [h]

lemma geometryFromUnit_lookup_thickness (u : String) (v : ℚ) :
    (geometryFromUnit u v).lookup "thickness_in" = none := by
  rcases geometryFromUnit_eq_cases u v with h | h | h | h | h | h <;> simp [h, List.lookup]

lemma candidateOfMatch_isSome (dt : Option String) (src : String) (idx : ℕ) (m : PdfMatch) :
    (candidateOfMatch dt src idx m).isSome := by
  unfold candidateOfMatch
  rw [if_neg (by simpa using geometryFromUnit_ne_nil (lowerStr m.unit) m.value)]
  dsimp only
  split_ifs <;> simp

lemma filterMap_length_of_isSome {α β : Type} (f : α → Option β) (l : List α)
    (h : ∀ x ∈ l, (f x).isSome) : (l.filterMap f).length = l.length := by
  induction l with
  | nil => simp
  | cons x rest ih =>
    rcases Option.isSome_iff_exists.mp (h x (by simp)) with ⟨b, hb⟩
    simp [List.filterMap_cons, hb, ih (fun y hy => h y (by simp [hy]))]

/-! ## C10 -/

/-- C10: `_geometry_from_unit` always returns a mapping with exactly one key
carrying the matched numeric value (unit tokens outside the known vocabulary
map to the key `quantity`), so the empty-geometry skip branch in
`_parse_pdf_page` is unreachable and every regex match yields exactly one
element candidate. -/
theorem c10_geometry_singleton :
    (∀ (u : String) (v : ℚ),
       geometryFromUnit u v = [("area_sqft", v)] ∨ geometryFromUnit u v = [("volume_cy", v)] ∨
       geometryFromUnit u v = [("length_ft", v)] ∨ geometryFromUnit u v = [("count", v)] ∨
       geometryFromUnit u v = [("labor_hours", v)] ∨ geometryFromUnit u v = [("quantity", v)]) ∧
    (∀ (u : String) (v : ℚ), geometryFromUnit u v ≠ []) ∧
    (∀ (dt : Option String) (src : String) (ms : List PdfMatch),
       (pageCandidates dt src ms).length = ms.length) := by
  refine ⟨geometryFromUnit_eq_cases, geometryFromUnit_ne_nil, fun dt src ms => ?_⟩
  unfold pageCandidates
  rw [filterMap_length_of_isSome _ _ (fun x _ => candidateOfMatch_isSome dt src (x.1 + 1) x.2)]
  exact List.enum_length

/-! ## C9 -/

/-- C9: a PDF page whose text yields zero element candidates produces, when a
default trade was supplied, exactly one placeholder element with id
`placeholder-1`, the default trade, category `unclassified`, empty geometry,
and metadata `placeholder = "true"` plus an explanatory note; without a
default trade such a page yields no elements. -/
theorem c9_placeholder :
    (∀ (src t : String) (ms : List PdfMatch), pageCandidates (some t) src ms = [] →
       parsePdfPage (some t) src ms = [placeholderElement t src]) ∧
    (∀ (src : String) (ms : List PdfMatch), pageCandidates none src ms = [] →
       parsePdfPage none src ms = []) ∧
    (∀ (t src : String), placeholderElement t src =
       ⟨"placeholder-1", t, "unclassified", [],
        [("source", Json.str src),
         ("note", Json.str "No measurable callouts detected. Review required."),
         ("placeholder", Json.str "true")]⟩) := by
  refine ⟨fun src t ms h => ?_, fun src ms h => ?_, fun t src => rfl⟩ <;>
    simp [parsePdfPage, h]

/-- Witness for C9 at the empty page. -/
theorem c9_placeholder_witness :
    pageCandidates (some "concrete") "empty.pdf#page1" [] = [] ∧
    parsePdfPage (some "concrete") "empty.pdf#page1" [] =
      [placeholderElement "concrete" "empty.pdf#page1"] ∧
    parsePdfPage none "empty.pdf#page1" [] = [] :=
  ⟨rfl, c9_placeholder.1 "empty.pdf#page1" "concrete" [] rfl,
   c9_placeholder.2.1 "empty.pdf#page1" [] rfl⟩

/-! ## C5 -/

/-- C5: for every element candidate produced from PDF page text, the default
slab thickness fires iff the inferred category is `slab`, the recovered
geometry contains `area_sqft`, and `thickness_in` is absent; when it fires it
sets `geometry["thickness_in"] = 6.0` and records `assumed_thickness_in` in
the metadata; when it does not fire, neither key is added. -/
theorem c5_default_thickness (dt : Option String) (src : String) (idx : ℕ) (m : PdfMatch)
    (e : DrawingElement) (he : candidateOfMatch dt src idx m = some e) :
    ((categoryFromLabel (trimStr m.label) = "slab" ∧
        ((geometryFromUnit (lowerStr m.unit) m.value).lookup "area_sqft").isSome = true ∧
        ((geometryFromUnit (lowerStr m.unit) m.value).lookup "thickness_in").isNone = true) →
       e.geometry.lookup "thickness_in" = some 6 ∧
       e.metadata.lookup "assumed_thickness_in" = some (Json.num 6)) ∧
    (¬ (categoryFromLabel (trimStr m.label) = "slab" ∧
        ((geometryFromUnit (lowerStr m.unit) m.value).lookup "area_sqft").isSome = true ∧
        ((geometryFromUnit (lowerStr m.unit) m.value).lookup "thickness_in").isNone = true) →
       e.geometry.lookup "thickness_in" = none ∧
       e.metadata.lookup "assumed_thickness_in" = none) := by
  unfold candidateOfMatch at he
  rw [if_neg (by simpa using geometryFromUnit_ne_nil (lowerStr m.unit) m.value)] at he
  dsimp only at he
  constructor
  · intro hC
    rw [if_pos hC] at he
    rcases Option.some.inj he with rfl
    constructor
    · rw [List.lookup_append, Option.isNone_iff_eq_none.mp hC.2.2]
      rfl
    · rw [List.lookup_append]
      rfl
  · intro hC
    rw [if_neg hC] at he
    rcases Option.some.inj he with rfl
    exact ⟨geometryFromUnit_lookup_thickness _ _, rfl⟩

/-- The spec's worked PDF example `Slab Area: 1200 SF` as a match. -/
def c5ExampleMatch : PdfMatch := ⟨"Slab Area", 1200, "SF"⟩

/-- The element that example produces (thickness default fired). -/
def c5ExampleElement : DrawingElement :=
  ⟨"slab-area-1", "concrete", "slab",
   [("area_sqft", 1200), ("thickness_in", 6)],
   [("source", Json.str "d.pdf#page1"), ("unit", Json.str "sf"),
    ("raw_label", Json.str "Slab Area"), ("assumed_thickness_in", Json.num 6)]⟩

/-- A non-slab match (`Wall Length: 40 LF`) on which the default must not
fire. -/
def c5NoFireMatch : PdfMatch := ⟨"Wall Length", 40, "LF"⟩

/-- The element the non-slab match produces (no thickness injected). -/
def c5NoFireElement : DrawingElement :=
  ⟨"wall-length-2", "concrete", "wall_length",
   [("length_ft", 40)],
   [("source", Json.str "d.pdf#page1"), ("unit", Json.str "lf"),
    ("raw_label", Json.str "Wall Length")]⟩

/-- Witness for C5: the default fires on `Slab Area: 1200 SF` and does not
fire on `Wall Length: 40 LF`. -/
theorem c5_default_thickness_witness :
    candidateOfMatch none "d.pdf#page1" 1 c5ExampleMatch = some c5ExampleElement ∧
    (categoryFromLabel (trimStr c5ExampleMatch.label) = "slab" ∧
     ((geometryFromUnit (lowerStr c5ExampleMatch.unit) c5ExampleMatch.value).lookup "area_sqft").isSome = true ∧
     ((geometryFromUnit (lowerStr c5ExampleMatch.unit) c5ExampleMatch.value).lookup "thickness_in").isNone = true) ∧
    (c5ExampleElement.geometry.lookup "thickness_in" = some 6 ∧
     c5ExampleElement.metadata.lookup "assumed_thickness_in" = some (Json.num 6)) ∧
    (c5NoFireElement.geometry.lookup "thickness_in" = none ∧
     c5NoFireElement.metadata.lookup "assumed_thickness_in" = none) :=
  ⟨rfl, ⟨rfl, rfl, rfl⟩,
   (c5_default_thickness none "d.pdf#page1" 1 c5ExampleMatch c5ExampleElement rfl).1
     ⟨rfl, rfl, rfl⟩,
   (c5_default_thickness none "d.pdf#page1" 2 c5NoFireMatch c5NoFireElement rfl).2
     (fun hC => absurd hC.1 (by decide))⟩

/-! ## C1 -/

/-- C1: the concrete estimator's exact derivations. A `slab` element yields
quantities `volume_cy = area_sqft * thickness_in / 12 / 27`,
`rebar_lb = volume_cy * 250`, `formwork_sf = area_sqft`; a `wall` yields
`volume_cy = length_ft * height_ft * thickness_in / 12 / 27`,
`rebar_lb = volume_cy * 180`, `formwork_sf = length_ft * height_ft * 2`; a
`pier` yields `volume_cy = pi * ((diameter_in / 12) / 2)^2 * depth_ft / 27`
and `rebar_lb = volume_cy * 120` with no formwork line item; and a geometry
key absent from the element's mapping reads as `0.0` instead of raising. -/
theorem c1_concrete_formulas (r : ConcreteRates) (rev0 : List ReviewItem) (e : DrawingElement) :
    (e.category = "slab" →
       (estimate r [e] rev0).1.line_items.map (fun li => (li.quantity, li.unit)) =
         [(getGeom e "area_sqft" * getGeom e "thickness_in" / 12 / 27, "cy"),
          (getGeom e "area_sqft" * getGeom e "thickness_in" / 12 / 27 * 250, "lb"),
          (getGeom e "area_sqft", "sf")]) ∧
    (e.category = "wall" →
       (estimate r [e] rev0).1.line_items.map (fun li => (li.quantity, li.unit)) =
         [(getGeom e "length_ft" * getGeom e "height_ft" * getGeom e "thickness_in" / 12 / 27, "cy"),
          (getGeom e "length_ft" * getGeom e "height_ft" * getGeom e "thickness_in" / 12 / 27 * 180, "lb"),
          (getGeom e "length_ft" * getGeom e "height_ft" * 2, "sf")]) ∧
    (e.category = "pier" →
       (estimate r [e] rev0).1.line_items.map (fun li => (li.quantity, li.unit)) =
         [(mathPi * ((getGeom e "diameter_in" / 12) / 2) ^ 2 * getGeom e "depth_ft" / 27, "cy"),
          (mathPi * ((getGeom e "diameter_in" / 12) / 2) ^ 2 * getGeom e "depth_ft" / 27 * 120, "lb")]) ∧
    (∀ (e' : DrawingElement) (k : String), e'.geometry.lookup k = none → getGeom e' k = 0) := by
  refine ⟨fun h => ?_, fun h => ?_, fun h => ?_, fun e' k hk => by simp [getGeom, hk]⟩
  · simp [estimate, estimateStep, h, mkLineItem, slabVolumeCy]
  · simp [estimate, estimateStep, h, mkLineItem, wallVolumeCy]
  · simp [estimate, estimateStep, h, mkLineItem, pierVolumeCy]
    ring_nf

/-- The spec's worked slab example. -/
def eSlab : DrawingElement :=
  ⟨"s1", "concrete", "slab", [("area_sqft", 100), ("thickness_in", 6)], []⟩

/-- A wall example element. -/
def eWall : DrawingElement :=
  ⟨"w1", "concrete", "wall", [("length_ft", 20), ("height_ft", 8), ("thickness_in", 8)], []⟩

/-- A pier example element. -/
def ePier : DrawingElement :=
  ⟨"p1", "concrete", "pier", [("diameter_in", 18), ("depth_ft", 10)], []⟩

/-- Witness for C1 at concrete slab/wall/pier elements, plus a missing
geometry key reading as zero. -/
theorem c1_concrete_formulas_witness :
    ((estimate defaultConcreteRates [eSlab] []).1.line_items.map (fun li => (li.quantity, li.unit)) =
       [(getGeom eSlab "area_sqft" * getGeom eSlab "thickness_in" / 12 / 27, "cy"),
        (getGeom eSlab "area_sqft" * getGeom eSlab "thickness_in" / 12 / 27 * 250, "lb"),
        (getGeom eSlab "area_sqft", "sf")]) ∧
    ((estimate defaultConcreteRates [eWall] []).1.line_items.map (fun li => (li.quantity, li.unit)) =
       [(getGeom eWall "length_ft" * getGeom eWall "height_ft" * getGeom eWall "thickness_in" / 12 / 27, "cy"),
        (getGeom eWall "length_ft" * getGeom eWall "height_ft" * getGeom eWall "thickness_in" / 12 / 27 * 180, "lb"),
        (getGeom eWall "length_ft" * getGeom eWall "height_ft" * 2, "sf")]) ∧
    ((estimate defaultConcreteRates [ePier] []).1.line_items.map (fun li => (li.quantity, li.unit)) =
       [(mathPi * ((getGeom ePier "diameter_in" / 12) / 2) ^ 2 * getGeom ePier "depth_ft" / 27, "cy"),
        (mathPi * ((getGeom ePier "diameter_in" / 12) / 2) ^ 2 * getGeom ePier "depth_ft" / 27 * 120, "lb")]) ∧
    (ePier.geometry.lookup "length_ft" = none ∧ getGeom ePier "length_ft" = 0) :=
  ⟨(c1_concrete_formulas defaultConcreteRates [] eSlab).1 rfl,
   (c1_concrete_formulas defaultConcreteRates [] eWall).2.1 rfl,
   (c1_concrete_formulas defaultConcreteRates [] ePier).2.2.1 rfl,
   rfl, (c1_concrete_formulas defaultConcreteRates [] ePier).2.2.2 ePier "length_ft" rfl⟩

/-! ## C2 -/

lemma elementLineItems_cy_sum (r : ConcreteRates) (e : DrawingElement) :
    (((elementLineItems r e).filter (fun li => li.unit == "cy")).map (fun li => li.quantity)).sum =
      elementCy e := by
  unfold elementLineItems elementCy
  split_ifs <;> simp [mkLineItem]

lemma elementLineItems_lb_sum (r : ConcreteRates) (e : DrawingElement) :
    (((elementLineItems r e).filter (fun li => li.unit == "lb")).map (fun li => li.quantity)).sum =
      elementRebar e := by
  unfold elementLineItems elementRebar
  split_ifs <;> simp [mkLineItem]

lemma elementLineItems_sf_sum (r : ConcreteRates) (e : DrawingElement) :
    (((elementLineItems r e).filter (fun li => li.unit == "sf")).map (fun li => li.quantity)).sum =
      elementFormwork e := by
  unfold elementLineItems elementFormwork
  split_ifs <;> simp [mkLineItem]

lemma sum_map_filter_flatMap {α : Type} (es : List α) (f : α → List TakeoffLineItem)
    (p : TakeoffLineItem → Bool) :
    (((es.flatMap f).filter p).map (fun li => li.quantity)).sum =
      (es.map (fun e => (((f e).filter p).map (fun li => li.quantity)).sum)).sum := by
  induction es with
  | nil => simp
  | cons e rest ih => simp [List.flatMap_cons, List.filter_append, ih]

lemma map_sum_congr {α : Type} (es : List α) (f g : α → ℚ) (h : ∀ e, f e = g e) :
    (es.map f).sum = (es.map g).sum := by
  induction es with
  | nil => rfl
  | cons e rest ih => simp [h, ih]

/-- C2: every line item's derived costs satisfy
`material_cost = quantity * material_unit_cost`,
`labor_hours = quantity * labor_hours_per_unit`,
`labor_cost = labor_hours * labor_rate_per_hour`; and, for any element set,
the summary's `material_cost`/`labor_hours`/`labor_cost` equal the sums of
those derived fields over the line items, while
`concrete_cy`/`rebar_lb`/`formwork_sf` equal the sums of the quantities of
the corresponding (`cy`/`lb`/`sf`) line items. -/
theorem c2_summary_reconciles :
    (∀ li : TakeoffLineItem,
       li.material_cost = li.quantity * li.material_unit_cost ∧
       li.labor_hours = li.quantity * li.labor_hours_per_unit ∧
       li.labor_cost = li.labor_hours * li.labor_rate_per_hour) ∧
    (∀ (r : ConcreteRates) (es : List DrawingElement) (rev0 : List ReviewItem),
       (estimate r es rev0).1.summary.material_cost =
         ((estimate r es rev0).1.line_items.map TakeoffLineItem.material_cost).sum ∧
       (estimate r es rev0).1.summary.labor_hours =
         ((estimate r es rev0).1.line_items.map TakeoffLineItem.labor_hours).sum ∧
       (estimate r es rev0).1.summary.labor_cost =
         ((estimate r es rev0).1.line_items.map TakeoffLineItem.labor_cost).sum ∧
       (estimate r es rev0).1.summary.concrete_cy =
         ((((estimate r es rev0).1.line_items.filter (fun li => li.unit == "cy")).map
            (fun li => li.quantity))).sum ∧
       (estimate r es rev0).1.summary.rebar_lb =
         ((((estimate r es rev0).1.line_items.filter (fun li => li.unit == "lb")).map
            (fun li => li.quantity))).sum ∧
       (estimate r es rev0).1.summary.formwork_sf =
         ((((estimate r es rev0).1.line_items.filter (fun li => li.unit == "sf")).map
            (fun li => li.quantity))).sum) := by
  refine ⟨fun li => ⟨rfl, rfl, rfl⟩, fun r es rev0 => ?_⟩
  have hfold := foldl_estimateStep r es
    { line_items := [], concrete_cy := 0, rebar_lb := 0, formwork_sf := 0, review := rev0 }
  refine ⟨by simp [estimate, sumOf], by simp [estimate, sumOf], by simp [estimate, sumOf], ?_, ?_, ?_⟩ <;>
    simp only [estimate, hfold, List.nil_append, sum_map_filter_flatMap]
  · exact (map_sum_congr es _ _ (fun e => (elementLineItems_cy_sum r e).symm)).symm ▸ by
      simp [map_sum_congr es elementCy _ (fun e => (elementLineItems_cy_sum r e).symm)]
  · simp [map_sum_congr es elementRebar _ (fun e => (elementLineItems_lb_sum r e).symm)]
  · simp [map_sum_congr es elementFormwork _ (fun e => (elementLineItems_sf_sum r e).symm)]

/-! ## C8 -/

/-- The review items a list of elements appends during the loop. -/
def reviewDelta (es : List DrawingElement) : List ReviewItem :=
  es.flatMap elementReview

/-- C8: an element whose category is none of slab/wall/pier produces zero
line items, contributes nothing to any summary total, and appends exactly one
`warning` review item whose message names the unsupported category and the
element id. -/
theorem c8_unsupported_category (r : ConcreteRates) (rev0 : List ReviewItem)
    (es1 es2 : List DrawingElement) (e : DrawingElement)
    (h1 : e.category ≠ "slab") (h2 : e.category ≠ "wall") (h3 : e.category ≠ "pier") :
    (estimate r (es1 ++ e :: es2) rev0).1.line_items =
      (estimate r (es1 ++ es2) rev0).1.line_items ∧
    (estimate r (es1 ++ e :: es2) rev0).1.summary =
      (estimate r (es1 ++ es2) rev0).1.summary ∧
    (estimate r (es1 ++ e :: es2) rev0).2 =
      rev0 ++ reviewDelta es1 ++ [unsupportedWarning e] ++ reviewDelta es2 ∧
    (estimate r (es1 ++ es2) rev0).2 = rev0 ++ reviewDelta es1 ++ reviewDelta es2 ∧
    unsupportedWarning e =
      ⟨"Concrete estimator encountered unsupported category '" ++ e.category ++
         "' for element " ++ e.id ++ ".", "warning"⟩ := by
  have hLI : elementLineItems r e = [] := by simp [elementLineItems, h1, h2, h3]
  have hCy : elementCy e = 0 := by simp [elementCy, h1, h2, h3]
  have hRb : elementRebar e = 0 := by simp [elementRebar, h1, h2, h3]
  have hFw : elementFormwork e = 0 := by simp [elementFormwork, h1, h2, h3]
  have hRv : elementReview e = [unsupportedWarning e] := by simp [elementReview, h1, h2, h3]
  refine ⟨?_, ?_, ?_, ?_, rfl⟩ <;>
    simp [estimate, foldl_estimateStep, estimateStep_eq, List.flatMap_append,
      List.flatMap_cons, hLI, hCy, hRb, hFw, hRv, reviewDelta, sumOf]

/-- The spec's unsupported-category example element. -/
def eUnknown : DrawingElement := ⟨"x1", "concrete", "unknown_thing", [], []⟩

/-- Witness for C8 at the `unknown_thing` element. -/
theorem c8_unsupported_category_witness :
    (eUnknown.category ≠ "slab" ∧ eUnknown.category ≠ "wall" ∧ eUnknown.category ≠ "pier") ∧
    (estimate defaultConcreteRates [eUnknown] []).1.line_items =
      (estimate defaultConcreteRates [] []).1.line_items ∧
    (estimate defaultConcreteRates [eUnknown] []).2 =
      [] ++ reviewDelta [] ++ [unsupportedWarning eUnknown] ++ reviewDelta [] ∧
    unsupportedWarning eUnknown =
      ⟨"Concrete estimator encountered unsupported category '" ++ eUnknown.category ++
         "' for element " ++ eUnknown.id ++ ".", "warning"⟩ :=
  ⟨⟨by decide, by decide, by decide⟩,
   (c8_unsupported_category defaultConcreteRates [] [] [] eUnknown
      (by decide) (by decide) (by decide)).1,
   (c8_unsupported_category defaultConcreteRates [] [] [] eUnknown
      (by decide) (by decide) (by decide)).2.2.1,
   (c8_unsupported_category defaultConcreteRates [] [] [] eUnknown
      (by decide) (by decide) (by decide)).2.2.2.2⟩

/-! ## C3 -/

/-- Whether an `Except` is a success. -/
def exceptIsOk {ε α : Type} : Except ε α → Bool
  | .ok _ => true
  | .error _ => false

/-- A minimal well-formed document (`{"elements": []}`). -/
def okDoc : Json := Json.obj [("elements", Json.arr [])]

/-- Counterexample to C3 as stated: in a directory with a corrupt `a.json`
and a readable `b.json`, loading aborts on `a.json` and the readable sibling
yields no Drawing at all — the failure is not per-document. -/
theorem c3_counterexample :
    (loadFromDirectory none
        [DirEntry.jsonFile "a.json" none, DirEntry.jsonFile "b.json" (some okDoc)]).1 = [] ∧
    (loadFromDirectory none
        [DirEntry.jsonFile "a.json" none, DirEntry.jsonFile "b.json" (some okDoc)]).2 =
      some "Failed to parse drawing JSON from a.json" ∧
    exceptIsOk (loadJson (some okDoc) "b.json") = true :=
  ⟨rfl, rfl, rfl⟩

lemma processJsonEntries_abort (pre post : List (String × Option Json)) (bad : String)
    (hpre : ∀ p ∈ pre, exceptIsOk (loadJson p.2 p.1) = true) :
    (processJsonEntries (pre ++ (bad, (none : Option Json)) :: post)).1.map Prod.fst =
      pre.map Prod.fst ∧
    (processJsonEntries (pre ++ (bad, (none : Option Json)) :: post)).2 =
      some ("Failed to parse drawing JSON from " ++ bad) := by
  induction pre with
  | nil => simp [processJsonEntries, loadJson]
  | cons p rest ih =>
    have hp := hpre p (by simp)
    rcases hok : loadJson p.2 p.1 with e | d
    · rw [hok] at hp
      simp [exceptIsOk] at hp
    · have hrest := ih (fun q hq => hpre q (by simp [hq]))
      simp [processJsonEntries, hok, hrest.1, hrest.2]

/-- The three-file directory for the C3 witness: a good document, a corrupt
one, a good one after it. -/
def c3Entries : List DirEntry :=
  [DirEntry.jsonFile "a.json" (some okDoc), DirEntry.jsonFile "b.json" none,
   DirEntry.jsonFile "c.json" (some okDoc)]

/-! ## C4 -/

/-- Counterexample to C4 as stated: a document with no `elements` array does
not fail — it loads as a Drawing with zero elements. -/
theorem c4_counterexample :
    loadJson (some (Json.obj [])) "doc.json" =
      Except.ok { name := Json.str "doc", level := none, scale := none, elements := [] } :=
  rfl

/-- C4 amended: a document without an `elements` array yields an
element-free Drawing rather than failing; each entry of a present `elements`
array must carry `id`, `trade`, `category` and `geometry`, otherwise parsing
fails with an error naming the missing field set. -/
theorem c4_required_fields :
    (∀ (src : String) (fields : List (String × Json)),
       fields.lookup "elements" = none →
       (fields.lookup "project" = none ∨ ∃ pf, fields.lookup "project" = some (Json.obj pf)) →
       ∃ d, loadJson (some (Json.obj fields)) src = Except.ok d ∧ d.elements = []) ∧
    (∀ (src : String) (fields : List (String × Json)),
       missingFields fields ≠ [] →
       parseElement (Json.obj fields) src =
         Except.error ("Element missing fields " ++ renderFieldList (missingFields fields) ++
           " in " ++ src)) := by
  constructor
  · intro src fields helems hproj
    rcases hproj with hnone | ⟨pf, hpf⟩
    · refine ⟨{ name := Json.str (pathStem src), level := none, scale := none,
                elements := [] }, ?_, rfl⟩
      simp [loadJson, helems, hnone, List.mapM, List.mapM.loop, pure, Except.pure]
    · refine ⟨{ name := (pf.lookup "name").getD (Json.str (pathStem src)),
                level := pf.lookup "level", scale := pf.lookup "scale",
                elements := [] }, ?_, rfl⟩
      simp [loadJson, helems, hpf, List.mapM, List.mapM.loop, pure, Except.pure]
  · intro src fields hmf
    unfold parseElement
    dsimp only
    rw [if_pos hmf]

/-- Witness for C4 (amended): the empty document loads with zero elements,
and an entry carrying only `id` fails naming the missing fields. -/
theorem c4_required_fields_witness :
    (([] : List (String × Json)).lookup "elements" = none) ∧
    exceptIsOk (loadJson (some (Json.obj [])) "w.json") = true ∧
    missingFields [("id", Json.str "e1")] ≠ [] ∧
    parseElement (Json.obj [("id", Json.str "e1")]) "s" =
      Except.error ("Element missing fields " ++
        renderFieldList (missingFields [("id", Json.str "e1")]) ++ " in " ++ "s") := by
  refine ⟨rfl, ?_, by decide, c4_required_fields.2 "s" [("id", Json.str "e1")] (by decide)⟩
  obtain ⟨d, hd, _⟩ := c4_required_fields.1 "w.json" [] rfl (Or.inl rfl)
  rw [hd]
  rfl

/-! ## C7 -/

/-- A JSON element entry carrying a garbage `markup_bbox` as an extra key. -/
def c7Fields : List (String × Json) :=
  [("id", Json.str "e1"), ("trade", Json.str "Concrete"), ("category", Json.str "slab"),
   ("geometry", Json.obj []), ("markup_bbox", Json.str "not-a-bbox")]

/-- The element that entry parses to: the garbage bbox passes through. -/
def c7Element : DrawingElement :=
  ⟨"e1", "concrete", "slab", [], [("markup_bbox", Json.str "not-a-bbox")]⟩

/-- Counterexample to C7 as stated: a loaded JSON element may carry any
string under `markup_bbox` (here one with no commas at all, so not four
comma-separated floats), and the manual-entry flow accepts coordinates with
`x1 = x2`. -/
theorem c7_counterexample :
    parseElement (Json.obj c7Fields) "doc.json" = Except.ok c7Element ∧
    c7Element.metadata.lookup "markup_bbox" = some (Json.str "not-a-bbox") ∧
    (splitOnCharAux ',' "not-a-bbox".data []).length = 1 ∧
    captureBboxCoords (1/2) (1/4) (1/2) (3/4) =
      [clamp01 (1/2), clamp01 (1/4), clamp01 (1/2), clamp01 (3/4)] ∧
    (captureBboxCoords (1/2) (1/4) (1/2) (3/4))[0]? =
      (captureBboxCoords (1/2) (1/4) (1/2) (3/4))[2]? :=
  ⟨rfl, rfl, rfl, rfl, rfl⟩

lemma clamp01_bounds (v : ℚ) : 0 ≤ clamp01 v ∧ clamp01 v ≤ 1 :=
  ⟨le_min (le_max_right _ _) zero_le_one, min_le_right _ _⟩

/-- C7 amended: the manual-entry flow stores exactly four coordinates, each
clamped into `[0,1]` (equal coordinates are not prevented), while metadata
keys arriving on loaded JSON elements — `markup_bbox` included — pass
through verbatim with no validation. -/
theorem c7_bbox_validation :
    (∀ x1 y1 x2 y2 : ℚ,
       (captureBboxCoords x1 y1 x2 y2).length = 4 ∧
       ∀ v ∈ captureBboxCoords x1 y1 x2 y2, 0 ≤ v ∧ v ≤ 1) ∧
    (∀ (fields : List (String × Json)) (src : String) (e : DrawingElement),
       parseElement (Json.obj fields) src = Except.ok e →
       e.metadata = fields.filter (fun kv => !(requiredFields.contains kv.1))) := by
  constructor
  · intro x1 y1 x2 y2
    refine ⟨rfl, fun v hv => ?_⟩
    simp [captureBboxCoords] at hv
    rcases hv with rfl | rfl | rfl | rfl <;> exact clamp01_bounds _
  · intro fields src e he
    unfold parseElement at he
    dsimp only at he
    split_ifs at he with hmf
    rcases hok : List.lookup "geometry" fields with _ | j
    · rw [hok] at he
      simp at he
    · rcases j with _ | b | q | s | items | gfs
      · rw [hok] at he; simp at he
      · rw [hok] at he; simp at he
      · rw [hok] at he; simp at he
      · rw [hok] at he; simp at he
      · rw [hok] at he; simp at he
      · rw [hok] at he
        dsimp only at he
        rcases hc : coerceGeometry src gfs with msg | g
        · rw [hc] at he
          simp at he
        · rw [hc] at he
          simp only [Except.ok.injEq] at he
          subst he
          simp

/-- Witness for C7 (amended): the garbage-bbox entry's metadata is the
verbatim extra-key list, and a captured bbox has four in-range coordinates. -/
theorem c7_bbox_validation_witness :
    c7Element.metadata = c7Fields.filter (fun kv => !(requiredFields.contains kv.1)) ∧
    (captureBboxCoords 2 (1/4) (1/2) (3/4)).length = 4 :=
  ⟨c7_bbox_validation.2 c7Fields "doc.json" c7Element rfl,
   (c7_bbox_validation.1 2 (1/4) (1/2) (3/4)).1⟩

/-! ## C6 -/

lemma lexLe_refl (as : List Char) : lexLe as as = true := by
  induction as with
  | nil => rfl
  | cons a rest ih => simp [lexLe, ih]

lemma strLe_refl (s : String) : strLe s s = true :=
  lexLe_refl s.data

lemma lexLe_total (as bs : List Char) : lexLe as bs = true ∨ lexLe bs as = true := by
  induction as generalizing bs with
  | nil => left; rfl
  | cons a as ih =>
    cases bs with
    | nil => right; rfl
    | cons b bs =>
      by_cases h1 : a.toNat < b.toNat
      · left; simp [lexLe, h1]
      · by_cases h2 : b.toNat < a.toNat
        · right; simp [lexLe, h2]
        · rcases ih bs with h | h
          · left; simp [lexLe, h1, h2, h]
          · right; simp [lexLe, h1, h2, h]

lemma strLe_total (s t : String) : strLe s t = true ∨ strLe t s = true :=
  lexLe_total s.data t.data

lemma lexLe_trans (as bs cs : List Char) (h1 : lexLe as bs = true)
    (h2 : lexLe bs cs = true) : lexLe as cs = true := by
  induction as generalizing bs cs with
  | nil => rfl
  | cons a as ih =>
    cases bs with
    | nil => simp [lexLe] at h1
    | cons b bs =>
      cases cs with
      | nil => simp [lexLe] at h2
      | cons c cs =>
        simp only [lexLe] at h1 h2 ⊢
        by_cases hab : a.toNat < b.toNat
        · by_cases hbc : b.toNat < c.toNat
          · simp [Nat.lt_trans hab hbc]
          · by_cases hcb : c.toNat < b.toNat
            · rw [if_neg hbc, if_pos hcb] at h2
              exact absurd h2 (by simp)
            · have hac : a.toNat < c.toNat := by omega
              simp [hac]
        · by_cases hba : b.toNat < a.toNat
          · rw [if_neg hab, if_pos hba] at h1
            exact absurd h1 (by simp)
          · rw [if_neg hab, if_neg hba] at h1
            by_cases hbc : b.toNat < c.toNat
            · have hac : a.toNat < c.toNat := by omega
              simp [hac]
            · by_cases hcb : c.toNat < b.toNat
              · rw [if_neg hbc, if_pos hcb] at h2
                exact absurd h2 (by simp)
              · rw [if_neg hbc, if_neg hcb] at h2
                have h3 : ¬ a.toNat < c.toNat := by omega
                have h4 : ¬ c.toNat < a.toNat := by omega
                rw [if_neg h3, if_neg h4]
                exact ih bs cs h1 h2

lemma strLe_trans (s t u : String) (h1 : strLe s t = true) (h2 : strLe t u = true) :
    strLe s u = true :=
  lexLe_trans s.data t.data u.data h1 h2

lemma sortByNameKey_sorted {α : Type} (key : α → String) (l : List α) :
    (sortByNameKey key l).Sorted (fun a b => strLe (key a) (key b) = true) := by
  haveI : IsTotal α (fun a b => strLe (key a) (key b) = true) :=
    ⟨fun a b => strLe_total (key a) (key b)⟩
  haveI : IsTrans α (fun a b => strLe (key a) (key b) = true) :=
    ⟨fun a b c => strLe_trans (key a) (key b) (key c)⟩
  unfold sortByNameKey
  exact List.sorted_insertionSort _ _

lemma sortByNameKey_map_sorted {α : Type} (key : α → String) (l : List α) :
    ((sortByNameKey key l).map key).Sorted (fun s t => strLe s t = true) :=
  List.pairwise_map.mpr (sortByNameKey_sorted key l)

lemma sorted_replicate (n : ℕ) (s : String) :
    (List.replicate n s).Sorted (fun x t => strLe x t = true) :=
  List.pairwise_replicate.mpr (Or.inr (strLe_refl s))

lemma sorted_flatMap_replicate {α : Type} (nm : α → String) (k : α → ℕ) (l : List α)
    (h : (l.map nm).Sorted (fun s t => strLe s t = true)) :
    (l.flatMap (fun a => List.replicate (k a) (nm a))).Sorted
      (fun s t => strLe s t = true) := by
  induction l with
  | nil => simp [List.Sorted]
  | cons a rest ih =>
    rw [List.map_cons, List.Sorted, List.pairwise_cons] at h
    rw [List.flatMap_cons, List.Sorted, List.pairwise_append]
    refine ⟨sorted_replicate _ _, ih h.2, fun x hx y hy => ?_⟩
    rw [List.eq_of_mem_replicate hx]
    rcases List.mem_flatMap.mp hy with ⟨b, hb, hyb⟩
    rw [List.eq_of_mem_replicate hyb]
    exact h.1 (nm b) (List.mem_map_of_mem nm hb)

/-- The number of Drawings one PDF content value expands to. -/
def numPagesOf : Option (List (List PdfMatch)) → ℕ
  | none => 0
  | some pages => (pagesOrBlank pages).length

/-- How many drawings one zip entry yields. -/
def zipEntryCount : DirEntry → ℕ
  | .jsonFile _ _ => 1
  | .pdfFile _ c => numPagesOf c

lemma map_fst_pair {α β : Type} (yn : String) (f : α → β) (l : List α) :
    (l.map (fun a => (yn, f a))).map Prod.fst = List.replicate l.length yn := by
  induction l with
  | nil => rfl
  | cons a rest ih => simp [ih, List.replicate_succ]

lemma pdfEntryDrawings_names (dt : Option String) (yn src st : String)
    (pages : List (List PdfMatch)) :
    (pdfEntryDrawings dt yn src st pages).map Prod.fst =
      List.replicate (pagesOrBlank pages).length yn := by
  unfold pdfEntryDrawings
  rw [map_fst_pair, List.enum_length]

lemma processJsonEntries_names (l : List (String × Option Json))
    (h : (processJsonEntries l).2 = none) :
    (processJsonEntries l).1.map Prod.fst = l.map Prod.fst := by
  induction l with
  | nil => rfl
  | cons p rest ih =>
    rcases hok : loadJson p.2 p.1 with e | d
    · rw [processJsonEntries, hok] at h
      simp at h
    · rw [processJsonEntries, hok] at h ⊢
      simp only [List.map_cons]
      rw [ih h]

lemma processPdfEntries_names (dt : Option String)
    (l : List (String × Option (List (List PdfMatch))))
    (h : (processPdfEntries dt l).2 = none) :
    (processPdfEntries dt l).1.map Prod.fst =
      l.flatMap (fun p => List.replicate (numPagesOf p.2) p.1) := by
  induction l with
  | nil => rfl
  | cons p rest ih =>
    rcases p with ⟨name, _ | pages⟩
    · rw [processPdfEntries] at h
      simp at h
    · rw [processPdfEntries] at h ⊢
      simp only [List.map_append, List.flatMap_cons, pdfEntryDrawings_names]
      rw [ih h]
      rfl

lemma processZipEntries_names (arch : String) (dt : Option String) (l : List DirEntry)
    (h : (processZipEntries arch dt l).2 = none) :
    (processZipEntries arch dt l).1.map Prod.fst =
      l.flatMap (fun en => List.replicate (zipEntryCount en) (entryName en)) := by
  induction l with
  | nil => rfl
  | cons en rest ih =>
    rcases en with ⟨name, content⟩ | ⟨name, _ | pages⟩
    · rcases hok : loadJson content (arch ++ ":" ++ name) with e | d
      · rw [processZipEntries, hok] at h
        simp at h
      · rw [processZipEntries, hok] at h ⊢
        simp only [List.map_cons]
        rw [ih h]
        rfl
    · rw [processZipEntries] at h
      simp at h
    · rw [processZipEntries] at h ⊢
      simp only [List.map_append, List.flatMap_cons, pdfEntryDrawings_names]
      rw [ih h]
      rfl

lemma loadFromDirectory_jsons_ok (dt : Option String) (entries : List DirEntry)
    (h : (loadFromDirectory dt entries).2 = none) :
    (processJsonEntries (sortByNameKey Prod.fst (jsonEntriesOf entries))).2 = none := by
  by_contra hne
  rcases Option.ne_none_iff_exists'.mp hne with ⟨e, he⟩
  unfold loadFromDirectory at h
  dsimp only at h
  rw [he] at h
  simp at h

lemma loadFromDirectory_split (dt : Option String) (entries : List DirEntry)
    (hjs : (processJsonEntries (sortByNameKey Prod.fst (jsonEntriesOf entries))).2 = none) :
    loadFromDirectory dt entries =
      ((processJsonEntries (sortByNameKey Prod.fst (jsonEntriesOf entries))).1 ++
        (processPdfEntries dt (sortByNameKey Prod.fst (pdfEntriesOf entries))).1,
       (processPdfEntries dt (sortByNameKey Prod.fst (pdfEntriesOf entries))).2) := by
  unfold loadFromDirectory
  dsimp only
  rw [hjs]

/-- Three files in shuffled order: a PDF whose name sorts first, then two
JSON documents. -/
def c6Entries : List DirEntry :=
  [DirEntry.pdfFile "a.pdf" (some [[]]), DirEntry.jsonFile "b.json" (some okDoc),
   DirEntry.jsonFile "c.json" (some okDoc)]

/-- Counterexample to C6 as stated: a directory holding `a.pdf`, `b.json`,
`c.json` (three files) yields `b.json`, `c.json`, `a.pdf` — not the
lexicographic order of the contained file names. -/
theorem c6_counterexample :
    c6Entries.length = 3 ∧
    dirYieldNames none c6Entries = ["b.json", "c.json", "a.pdf"] ∧
    ¬ (dirYieldNames none c6Entries).Sorted (fun s t => strLe s t = true) := by
  refine ⟨rfl, rfl, fun h => ?_⟩
  rw [show dirYieldNames none c6Entries = ["b.json", "c.json", "a.pdf"] from rfl] at h
  have h2 := List.pairwise_cons.mp h
  have h3 := List.pairwise_cons.mp h2.2
  exact absurd (h3.1 "a.pdf" (by simp)) (by decide)

/-- C6 amended: a directory yields all its JSON documents first, in
lexicographic file-name order, then all its PDF files, in lexicographic
file-name order (one Drawing per page); a zip archive yields its JSON and
PDF entries interleaved in the lexicographic order of archive entry names. -/
theorem c6_load_order :
    (∀ (dt : Option String) (entries : List DirEntry),
       (loadFromDirectory dt entries).2 = none →
       dirYieldNames dt entries =
         (sortByNameKey Prod.fst (jsonEntriesOf entries)).map Prod.fst ++
           (sortByNameKey Prod.fst (pdfEntriesOf entries)).flatMap
             (fun p => List.replicate (numPagesOf p.2) p.1)) ∧
    (∀ entries : List DirEntry,
       ((sortByNameKey Prod.fst (jsonEntriesOf entries)).map Prod.fst).Sorted
         (fun s t => strLe s t = true) ∧
       ((sortByNameKey Prod.fst (pdfEntriesOf entries)).flatMap
           (fun p => List.replicate (numPagesOf p.2) p.1)).Sorted
         (fun s t => strLe s t = true)) ∧
    (∀ (arch : String) (dt : Option String) (entries : List DirEntry),
       (loadFromZip arch dt entries).2 = none →
       (zipYieldNames arch dt entries).Sorted (fun s t => strLe s t = true)) := by
  refine ⟨fun dt entries h => ?_, fun entries => ⟨?_, ?_⟩, fun arch dt entries h => ?_⟩
  · have hjs := loadFromDirectory_jsons_ok dt entries h
    have hps : (processPdfEntries dt (sortByNameKey Prod.fst (pdfEntriesOf entries))).2 = none := by
      rw [loadFromDirectory_split dt entries hjs] at h
      exact h
    unfold dirYieldNames
    rw [loadFromDirectory_split dt entries hjs]
    simp only [List.map_append]
    rw [processJsonEntries_names _ hjs, processPdfEntries_names _ _ hps]
  · exact sortByNameKey_map_sorted Prod.fst (jsonEntriesOf entries)
  · exact sorted_flatMap_replicate Prod.fst (fun p => numPagesOf p.2) _
      (sortByNameKey_map_sorted Prod.fst (pdfEntriesOf entries))
  · have h2 : (processZipEntries arch dt (sortByNameKey entryName entries)).2 = none := h
    unfold zipYieldNames loadFromZip
    rw [processZipEntries_names arch dt _ h2]
    exact sorted_flatMap_replicate entryName zipEntryCount _
      (sortByNameKey_map_sorted entryName entries)

/-- Witness for C6 (amended) on the three-file set: no load error, the
directory order is JSONs then PDFs each sorted, and the zip order is sorted. -/
theorem c6_load_order_witness :
    (loadFromDirectory none c6Entries).2 = none ∧
    dirYieldNames none c6Entries =
      (sortByNameKey Prod.fst (jsonEntriesOf c6Entries)).map Prod.fst ++
        (sortByNameKey Prod.fst (pdfEntriesOf c6Entries)).flatMap
          (fun p => List.replicate (numPagesOf p.2) p.1) ∧
    (loadFromZip "z.zip" none c6Entries).2 = none ∧
    (zipYieldNames "z.zip" none c6Entries).Sorted (fun s t => strLe s t = true) :=
  ⟨rfl, c6_load_order.1 none c6Entries rfl, rfl,
   c6_load_order.2.2 "z.zip" none c6Entries rfl⟩

/-! ## C3 (settling theorem; the counterexample and machinery are above) -/

/-- The error one zip entry raises when processed, if any: the `ValueError`
from `_load_json` for a `.json` entry, the PDF-read failure for a `.pdf`
entry. -/
def zipEntryError (arch : String) : DirEntry → Option String
  | .jsonFile n c =>
    match loadJson c (arch ++ ":" ++ n) with
    | .error e => some e
    | .ok _ => none
  | .pdfFile n c =>
    match c with
    | none => some ("Failed to read drawing PDF from " ++ arch ++ ":" ++ n)
    | some _ => none

lemma processPdfEntries_abort (dt : Option String)
    (pre post : List (String × Option (List (List PdfMatch)))) (bad : String)
    (hpre : ∀ p ∈ pre, p.2.isSome = true) :
    (processPdfEntries dt (pre ++ (bad, none) :: post)).1.map Prod.fst =
      pre.flatMap (fun p => List.replicate (numPagesOf p.2) p.1) ∧
    (processPdfEntries dt (pre ++ (bad, none) :: post)).2 =
      some ("Failed to read drawing PDF from " ++ bad) := by
  induction pre with
  | nil => exact ⟨rfl, rfl⟩
  | cons p rest ih =>
    have hok := hpre p (by simp)
    rcases p with ⟨name, _ | pages⟩
    · simp at hok
    · have hrest := ih (fun q hq => hpre q (by simp [hq]))
      rw [List.cons_append, processPdfEntries]
      simp only [List.map_append, List.flatMap_cons, pdfEntryDrawings_names]
      rw [hrest.1]
      exact ⟨rfl, hrest.2⟩

lemma processZipEntries_abort (arch : String) (dt : Option String)
    (pre post : List DirEntry) (bad : DirEntry) (msg : String)
    (hbad : zipEntryError arch bad = some msg)
    (hpre : ∀ en ∈ pre, zipEntryError arch en = none) :
    (processZipEntries arch dt (pre ++ bad :: post)).1.map Prod.fst =
      pre.flatMap (fun en => List.replicate (zipEntryCount en) (entryName en)) ∧
    (processZipEntries arch dt (pre ++ bad :: post)).2 = some msg := by
  induction pre with
  | nil =>
    simp only [List.nil_append, List.flatMap_nil]
    rcases bad with ⟨name, content⟩ | ⟨name, _ | pages⟩
    · unfold zipEntryError at hbad
      dsimp only at hbad
      rcases hok : loadJson content (arch ++ ":" ++ name) with e | d
      · rw [hok] at hbad
        dsimp only at hbad
        rw [processZipEntries, hok]
        exact ⟨rfl, hbad⟩
      · rw [hok] at hbad
        simp at hbad
    · unfold zipEntryError at hbad
      dsimp only at hbad
      rw [processZipEntries]
      exact ⟨rfl, hbad⟩
    · unfold zipEntryError at hbad
      simp at hbad
  | cons en rest ih =>
    have hok := hpre en (by simp)
    have hrest := ih (fun x hx => hpre x (by simp [hx]))
    rcases en with ⟨name, content⟩ | ⟨name, _ | pages⟩
    · unfold zipEntryError at hok
      dsimp only at hok
      rcases hld : loadJson content (arch ++ ":" ++ name) with e | d
      · rw [hld] at hok
        simp at hok
      · rw [List.cons_append, processZipEntries, hld]
        simp only [List.map_cons, List.flatMap_cons]
        rw [hrest.1]
        exact ⟨rfl, hrest.2⟩
    · unfold zipEntryError at hok
      simp at hok
    · rw [List.cons_append, processZipEntries]
      simp only [List.map_append, List.flatMap_cons, pdfEntryDrawings_names]
      rw [hrest.1]
      exact ⟨rfl, hrest.2⟩

/-- C3 amended: in directory and zip mode alike, a document that fails to
parse — malformed JSON, or a PDF that cannot be read at all — is surfaced as
an error naming the source, but it aborts the batch at that point: siblings
processed before the failing document are still yielded, siblings after it
are lost. -/
theorem c3_parse_failure_aborts :
    (∀ (dt : Option String) (entries : List DirEntry)
       (pre post : List (String × Option Json)) (bad : String),
       sortByNameKey Prod.fst (jsonEntriesOf entries) =
         pre ++ (bad, (none : Option Json)) :: post →
       (∀ p ∈ pre, exceptIsOk (loadJson p.2 p.1) = true) →
       (loadFromDirectory dt entries).1.map Prod.fst = pre.map Prod.fst ∧
       (loadFromDirectory dt entries).2 =
         some ("Failed to parse drawing JSON from " ++ bad)) ∧
    (∀ (dt : Option String) (entries : List DirEntry)
       (pre post : List (String × Option (List (List PdfMatch)))) (bad : String),
       (processJsonEntries (sortByNameKey Prod.fst (jsonEntriesOf entries))).2 = none →
       sortByNameKey Prod.fst (pdfEntriesOf entries) = pre ++ (bad, none) :: post →
       (∀ p ∈ pre, p.2.isSome = true) →
       (loadFromDirectory dt entries).1.map Prod.fst =
         (sortByNameKey Prod.fst (jsonEntriesOf entries)).map Prod.fst ++
           pre.flatMap (fun p => List.replicate (numPagesOf p.2) p.1) ∧
       (loadFromDirectory dt entries).2 =
         some ("Failed to read drawing PDF from " ++ bad)) ∧
    (∀ (arch : String) (dt : Option String) (entries : List DirEntry)
       (pre post : List DirEntry) (bad : DirEntry) (msg : String),
       sortByNameKey entryName entries = pre ++ bad :: post →
       zipEntryError arch bad = some msg →
       (∀ en ∈ pre, zipEntryError arch en = none) →
       (loadFromZip arch dt entries).1.map Prod.fst =
         pre.flatMap (fun en => List.replicate (zipEntryCount en) (entryName en)) ∧
       (loadFromZip arch dt entries).2 = some msg) := by
  refine ⟨fun dt entries pre post bad hsplit hpre => ?_,
          fun dt entries pre post bad hjs hsplit hpre => ?_,
          fun arch dt entries pre post bad msg hsplit hbad hpre => ?_⟩
  · have h := processJsonEntries_abort pre post bad hpre
    rw [← hsplit] at h
    unfold loadFromDirectory
    dsimp only
    rw [h.2]
    exact ⟨h.1, rfl⟩
  · have habort := processPdfEntries_abort dt pre post bad hpre
    rw [← hsplit] at habort
    rw [loadFromDirectory_split dt entries hjs]
    constructor
    · simp only [List.map_append]
      rw [processJsonEntries_names _ hjs, habort.1]
    · exact habort.2
  · have habort := processZipEntries_abort arch dt pre post bad msg hbad hpre
    rw [← hsplit] at habort
    unfold loadFromZip
    exact ⟨habort.1, habort.2⟩

/-- A directory whose PDF phase fails in the middle: `b.pdf` readable,
`c.pdf` unreadable, `d.pdf` readable. -/
def c3PdfEntries : List DirEntry :=
  [DirEntry.jsonFile "a.json" (some okDoc), DirEntry.pdfFile "b.pdf" (some [[]]),
   DirEntry.pdfFile "c.pdf" none, DirEntry.pdfFile "d.pdf" (some [[]])]

/-- A zip with a readable JSON followed by an unreadable PDF and another
JSON. -/
def c3ZipEntries : List DirEntry :=
  [DirEntry.jsonFile "a.json" (some okDoc), DirEntry.pdfFile "b.pdf" none,
   DirEntry.jsonFile "c.json" (some okDoc)]

/-- A zip whose first entry is a malformed JSON document. -/
def c3ZipEntries2 : List DirEntry :=
  [DirEntry.jsonFile "a.json" none, DirEntry.pdfFile "b.pdf" (some [[]])]

/-- Witness for C3 (amended), exercising all four mode-failure combinations:
a corrupt JSON in a directory, an unreadable PDF in a directory, and an
unreadable PDF and a corrupt JSON inside a zip. -/
theorem c3_parse_failure_aborts_witness :
    ((loadFromDirectory none c3Entries).1.map Prod.fst =
       [(("a.json" : String), some okDoc)].map Prod.fst ∧
     (loadFromDirectory none c3Entries).2 =
       some ("Failed to parse drawing JSON from " ++ "b.json")) ∧
    ((loadFromDirectory none c3PdfEntries).1.map Prod.fst =
       (sortByNameKey Prod.fst (jsonEntriesOf c3PdfEntries)).map Prod.fst ++
         [(("b.pdf" : String), some [([] : List PdfMatch)])].flatMap
           (fun p => List.replicate (numPagesOf p.2) p.1) ∧
     (loadFromDirectory none c3PdfEntries).2 =
       some ("Failed to read drawing PDF from " ++ "c.pdf")) ∧
    ((loadFromZip "z.zip" none c3ZipEntries).1.map Prod.fst =
       [DirEntry.jsonFile "a.json" (some okDoc)].flatMap
         (fun en => List.replicate (zipEntryCount en) (entryName en)) ∧
     (loadFromZip "z.zip" none c3ZipEntries).2 =
       some "Failed to read drawing PDF from z.zip:b.pdf") ∧
    (loadFromZip "z.zip" none c3ZipEntries2).2 =
      some "Failed to parse drawing JSON from z.zip:a.json" := by
  have hpreA : ∀ p ∈ [(("a.json" : String), some okDoc)],
      exceptIsOk (loadJson p.2 p.1) = true := by
    intro p hp
    have h := List.mem_singleton.mp hp
    subst h
    rfl
  have hpreB : ∀ p ∈ [(("b.pdf" : String), some [([] : List PdfMatch)])],
      (p.2).isSome = true := by
    intro p hp
    have h := List.mem_singleton.mp hp
    subst h
    rfl
  have hpreC : ∀ en ∈ [DirEntry.jsonFile "a.json" (some okDoc)],
      zipEntryError "z.zip" en = none := by
    intro en hen
    have h := List.mem_singleton.mp hen
    subst h
    rfl
  have hpreD : ∀ en ∈ ([] : List DirEntry), zipEntryError "z.zip" en = none := by
    intro en hen
    exact absurd hen (List.not_mem_nil en)
  refine ⟨c3_parse_failure_aborts.1 none c3Entries [("a.json", some okDoc)]
      [("c.json", some okDoc)] "b.json" rfl hpreA,
    c3_parse_failure_aborts.2.1 none c3PdfEntries [("b.pdf", some [[]])]
      [("d.pdf", some [[]])] "c.pdf" rfl rfl hpreB,
    c3_parse_failure_aborts.2.2 "z.zip" none c3ZipEntries
      [DirEntry.jsonFile "a.json" (some okDoc)] [DirEntry.jsonFile "c.json" (some okDoc)]
      (DirEntry.pdfFile "b.pdf" none) "Failed to read drawing PDF from z.zip:b.pdf"
      rfl rfl hpreC,
    (c3_parse_failure_aborts.2.2 "z.zip" none c3ZipEntries2 []
      [DirEntry.pdfFile "b.pdf" (some [[]])] (DirEntry.jsonFile "a.json" none)
      "Failed to parse drawing JSON from z.zip:a.json" rfl rfl hpreD).2⟩

end ConstructionTakeoff
